import Mathlib

/-!
# Verification of the operation-tracking subsystem

Shallow embedding of the real-time operation-tracking subsystem of the
TAMU-Datathon frontend:

* the operation registry (`frontend/src/contexts/ProgressContext.tsx`):
  active-operations map, bounded deduplicated history, persistence
  write-through, and the stale-operation reclassification performed on load;
* the event-stream (SSE) client (`services/api.ts`, `subscribeToProgress`):
  reconnection policy, frame handling, idempotent cleanup;
* the completion arbiter (`frontend/src/App.tsx`, `handleClassifyDocument`):
  the `isCompleted` flag, the grace-window completion timer and the
  hard-safety cleanup timer.

Timestamps (`Date.now()`) are modelled as explicit `Nat` parameters.
JavaScript `Map<string, _>` is modelled as an insertion-ordered list of
operations looked up by `documentId`: `Map.set` replaces in place or appends,
`Map.delete` filters, and `forEach` iterates in list order, matching the
insertion-order iteration of a JS `Map`.  The persistence `useEffect`s of the
provider (which rewrite the two `localStorage` snapshots whenever the
corresponding React state object changes) are folded into each operation as a
write-through at content level.
-/

namespace ProgressTracking

/-- Step severity, from `ProgressStep.type` in `ProgressContext.tsx`
(`'info' | 'success' | 'warning' | 'error'`). -/
inductive StepType where
  | info
  | success
  | warning
  | error
deriving DecidableEq, Repr

/-- One progress step, from `ProgressStep` in `ProgressContext.tsx`.
The source builds the step id from the document id, `Date.now()` and
`Math.random()`; the random suffix (used only to make React keys unique) is
abstracted away and the id is built from the document id and the timestamp. -/
structure ProgressStep where
  id : String
  message : String
  timestamp : Nat
  type : StepType
deriving DecidableEq, Repr

/-- Operation status, from `ProgressOperation.status` in `ProgressContext.tsx`
(`'active' | 'completed' | 'error'`). -/
inductive OpStatus where
  | active
  | completed
  | error
deriving DecidableEq, Repr

/-- One tracked operation, from `ProgressOperation` in `ProgressContext.tsx`. -/
structure ProgressOperation where
  documentId : String
  filename : Option String
  status : OpStatus
  steps : List ProgressStep
  startedAt : Nat
  completedAt : Option Nat
  error : Option String
deriving DecidableEq, Repr

/-- `Map.get`: look up the active entry for a document id
(`activeOperations.get(documentId)`). -/
def mapGet (l : List ProgressOperation) (documentId : String) :
    Option ProgressOperation :=
  l.find? (fun op => op.documentId == documentId)

/-- `Map.set`: insert or replace the entry for `op.documentId`, keeping the
insertion position of an existing key (JS `Map.set` semantics). -/
def mapSet (l : List ProgressOperation) (op : ProgressOperation) :
    List ProgressOperation :=
  if l.any (fun o => o.documentId == op.documentId) then
    l.map (fun o => if o.documentId == op.documentId then op else o)
  else
    l ++ [op]

/-- `Map.delete`: drop the entry for a document id. -/
def mapDelete (l : List ProgressOperation) (documentId : String) :
    List ProgressOperation :=
  l.filter (fun op => op.documentId != documentId)

/-- `MAX_HISTORY` from `ProgressContext.tsx`. -/
def MAX_HISTORY : Nat := 50

/-- The staleness threshold `fiveMinutes = 5 * 60 * 1000` from the
stale-operations effect in `ProgressContext.tsx`. -/
def fiveMinutes : Nat := 5 * 60 * 1000

/-- The fixed message given to operations interrupted by a reload
(`ProgressContext.tsx`, stale-operations effect). -/
def staleErrorMsg : String := "Operation interrupted (page refresh)"

/-- Registry state: the provider's `activeOperations` map and `history` list,
plus the content of the two `localStorage` snapshots
(`classification_active` and `classification_history`; `none` = key absent).
Each operation below folds in the write-through performed by the provider's
persistence `useEffect`s: whenever an operation produces a new map/array
object, the corresponding snapshot is rewritten with its content. -/
structure RegState where
  active : List ProgressOperation
  history : List ProgressOperation
  storageActive : Option (List ProgressOperation)
  storageHistory : Option (List ProgressOperation)
deriving DecidableEq, Repr

/-- `startOperation` from `ProgressContext.tsx`: creates (or overwrites) an
active entry with `status = active`, empty steps, `startedAt = now`. -/
def startOperation (documentId : String) (filename : Option String) (now : Nat)
    (s : RegState) : RegState :=
  let operation : ProgressOperation :=
    { documentId := documentId
      filename := filename
      status := OpStatus.active
      steps := []
      startedAt := now
      completedAt := none
      error := none }
  let newActive := mapSet s.active operation
  { s with active := newActive, storageActive := some newActive }

/-- `addProgress` from `ProgressContext.tsx`: appends a step to the active
entry for `documentId`; if there is no active entry this is a silent no-op on
the map content (the source still returns a fresh `Map` object, so the
active-operations snapshot is rewritten with unchanged content). -/
def addProgress (documentId message : String) (ty : StepType) (now : Nat)
    (s : RegState) : RegState :=
  match mapGet s.active documentId with
  | none => { s with storageActive := some s.active }
  | some operation =>
      let step : ProgressStep :=
        { id := documentId ++ "-" ++ toString now
          message := message
          timestamp := now
          type := ty }
      let newActive := mapSet s.active { operation with steps := operation.steps ++ [step] }
      { s with active := newActive, storageActive := some newActive }

/-- `completeOperation` from `ProgressContext.tsx`: if an active entry exists,
marks it completed, prepends it to history unless an entry with the same
`(documentId, startedAt)` pair is already there, caps history at
`MAX_HISTORY`, and removes it from the active set.  If no active entry
exists the source returns the previous state objects unchanged (so neither
snapshot is rewritten). -/
def completeOperation (documentId : String) (now : Nat) (s : RegState) :
    RegState :=
  match mapGet s.active documentId with
  | none => s
  | some operation =>
      let completedOperation : ProgressOperation :=
        { operation with status := OpStatus.completed, completedAt := some now }
      let isDup := s.history.any
        (fun h => h.documentId == documentId && h.startedAt == operation.startedAt)
      let newHistory :=
        if isDup then s.history
        else (completedOperation :: s.history).take MAX_HISTORY
      let newActive := mapDelete s.active documentId
      { active := newActive
        history := newHistory
        storageActive := some newActive
        storageHistory := if isDup then s.storageHistory else some newHistory }

/-- `errorOperation` from `ProgressContext.tsx`: like `completeOperation` but
sets `status = error` and records the message. -/
def errorOperation (documentId error : String) (now : Nat) (s : RegState) :
    RegState :=
  match mapGet s.active documentId with
  | none => s
  | some operation =>
      let erroredOperation : ProgressOperation :=
        { operation with
            status := OpStatus.error
            completedAt := some now
            error := some error }
      let isDup := s.history.any
        (fun h => h.documentId == documentId && h.startedAt == operation.startedAt)
      let newHistory :=
        if isDup then s.history
        else (erroredOperation :: s.history).take MAX_HISTORY
      let newActive := mapDelete s.active documentId
      { active := newActive
        history := newHistory
        storageActive := some newActive
        storageHistory := if isDup then s.storageHistory else some newHistory }

/-- `removeOperation` from `ProgressContext.tsx`: drops the active entry
without creating a history record. -/
def removeOperation (documentId : String) (s : RegState) : RegState :=
  let newActive := mapDelete s.active documentId
  { s with active := newActive, storageActive := some newActive }

/-- `clearHistory` from `ProgressContext.tsx`: empties the in-memory history
and removes both `localStorage` keys.  The history persistence effect then
fires (the history array object changed) and rewrites the history snapshot
with the now-empty list, so the net durable result is an empty history
snapshot and an absent active-operations snapshot. -/
def clearHistory (s : RegState) : RegState :=
  { s with history := [], storageHistory := some [], storageActive := none }

/-- `getOperation` from `ProgressContext.tsx`. -/
def getOperation (documentId : String) (s : RegState) : Option ProgressOperation :=
  mapGet s.active documentId

/-- The stale-operations effect run once on mount (`ProgressContext.tsx`,
lines 146-174): every restored active entry older than `fiveMinutes` is
converted to a terminal error entry with message `staleErrorMsg` and
`completedAt = now`, the batch is prepended to history (capped at
`MAX_HISTORY`), and the stale entries are removed from the active set.
History is only touched when at least one entry is stale. -/
def loadStaleOperations (now : Nat) (s : RegState) : RegState :=
  let staleOps :=
    (s.active.filter (fun op => decide (fiveMinutes < now - op.startedAt))).map
      (fun op =>
        { op with
            status := OpStatus.error
            completedAt := some now
            error := some staleErrorMsg })
  let newActive := s.active.filter (fun op => !decide (fiveMinutes < now - op.startedAt))
  let newHistory :=
    if staleOps.isEmpty then s.history
    else (staleOps ++ s.history).take MAX_HISTORY
  { active := newActive
    history := newHistory
    storageActive := some newActive
    storageHistory := if staleOps.isEmpty then s.storageHistory else some newHistory }

/-- One registry operation, for quantifying over call sequences. -/
inductive RegOp where
  | start (documentId : String) (filename : Option String) (now : Nat)
  | step (documentId message : String) (ty : StepType) (now : Nat)
  | complete (documentId : String) (now : Nat)
  | error (documentId error : String) (now : Nat)
  | remove (documentId : String)
  | clear
deriving DecidableEq, Repr

/-- Interpretation of one registry operation. -/
def regStep : RegOp → RegState → RegState
  | RegOp.start id fn now => startOperation id fn now
  | RegOp.step id msg ty now => addProgress id msg ty now
  | RegOp.complete id now => completeOperation id now
  | RegOp.error id e now => errorOperation id e now
  | RegOp.remove id => removeOperation id
  | RegOp.clear => clearHistory

/-- Run a sequence of registry operations. -/
def regRun (ops : List RegOp) (s : RegState) : RegState :=
  ops.foldl (fun t op => regStep op t) s

/-- Initial registry state: empty map and history (fresh session with no
persisted data); the mount-time persistence effects have written both
snapshots. -/
def regInit : RegState :=
  { active := [], history := [], storageActive := some [], storageHistory := some [] }

/-!
## Event-stream (SSE) client

Shallow embedding of `subscribeToProgress` in `services/api.ts`.  The closure
state of one subscription (`reconnectAttempts`, `isManuallyCloseD`,
`reconnectTimer`, `eventSource`) is made explicit, together with counters for
the callback invocations the claims talk about.  Transport and frame arrivals
are modelled as external events; the model over-approximates the environment
(e.g. it allows several transport errors on one closed source), so safety
properties proven over it also hold for the real event orders.
-/

/-- `EventSource.readyState` values. -/
inductive ESReadyState where
  | connecting
  | opened
  | closed
deriving DecidableEq, Repr

/-- State of one `subscribeToProgress` subscription.  `eventSource = none`
models the `eventSource` variable being `null`; `reconnectTimer = some d`
models a pending `setTimeout` with delay `d`.  `lostCalls` counts invocations
of `onError` with the terminal "Connection lost" message, `serverErrorCalls`
invocations with the server-reported-error message, `connectFailCalls`
invocations with the connection-establishment failure message. -/
structure SSEState where
  reconnectAttempts : Nat
  isManuallyCloseD : Bool
  reconnectTimer : Option Nat
  eventSource : Option ESReadyState
  lostCalls : Nat
  serverErrorCalls : Nat
  connectFailCalls : Nat
  progressCalls : Nat
  completeCalls : Nat
deriving DecidableEq, Repr

/-- `maxReconnectAttempts` from `subscribeToProgress`. -/
def maxReconnectAttempts : Nat := 3

/-- `reconnectDelay` (2 seconds, in ms) from `subscribeToProgress`. -/
def reconnectDelay : Nat := 2000

/-- The `cleanup` closure of `subscribeToProgress`: sets `isManuallyCloseD`,
clears any pending reconnect timer, and closes/nulls the event source. -/
def sseCleanup (s : SSEState) : SSEState :=
  { s with isManuallyCloseD := true, reconnectTimer := none, eventSource := none }

/-- The `connect` closure of `subscribeToProgress`: returns immediately when
manually closed; otherwise creates a new `EventSource` (`ok = true`) or, if
the constructor throws, invokes `onError("Failed to establish connection")`
leaving the `eventSource` variable unchanged (`ok = false`). -/
def sseConnect (ok : Bool) (s : SSEState) : SSEState :=
  if s.isManuallyCloseD then s
  else if ok then { s with eventSource := some ESReadyState.connecting }
  else { s with connectFailCalls := s.connectFailCalls + 1 }

/-- External events driving one subscription. -/
inductive SSEEvent where
  | onOpen
  | transportFail
  | timerFire (ok : Bool)
  | frameKeepalive
  | frameMalformed
  | frameConnected
  | frameProgress
  | frameComplete
  | frameError
  | manualCleanup
deriving DecidableEq, Repr

/-- One step of the subscription, transliterated from `subscribeToProgress`:

* `onOpen`: the `onopen` handler resets `reconnectAttempts` to 0;
* `transportFail`: the transport drops (readyState becomes `CLOSED`) and the
  `onerror` handler runs: below the retry bound it increments the attempt
  counter and schedules a reconnect after `reconnectDelay`; at the bound it
  invokes `onError` with the terminal "Connection lost" message and cleans up;
* `timerFire ok`: a pending reconnect timer fires, closes the old source and
  calls `connect`;
* frame events model the `onmessage` handler (which only receives data on a
  live connection): keepalive comments, malformed frames and `connected`
  frames change nothing; `progress` forwards; `complete`/`error` forward and
  self-clean;
* `manualCleanup`: the caller invokes the returned cleanup function. -/
def sseStep (ev : SSEEvent) (s : SSEState) : SSEState :=
  match ev with
  | SSEEvent.onOpen =>
      match s.eventSource with
      | none => s
      | some _ => { s with eventSource := some ESReadyState.opened, reconnectAttempts := 0 }
  | SSEEvent.transportFail =>
      match s.eventSource with
      | none => s
      | some _ =>
          let s1 := { s with eventSource := some ESReadyState.closed }
          if !s1.isManuallyCloseD && s1.reconnectAttempts < maxReconnectAttempts then
            { s1 with
                reconnectAttempts := s1.reconnectAttempts + 1
                reconnectTimer := some reconnectDelay }
          else if maxReconnectAttempts ≤ s1.reconnectAttempts then
            sseCleanup { s1 with lostCalls := s1.lostCalls + 1 }
          else s1
  | SSEEvent.timerFire ok =>
      match s.reconnectTimer with
      | none => s
      | some _ =>
          sseConnect ok
            { s with
                reconnectTimer := none
                eventSource := s.eventSource.map (fun _ => ESReadyState.closed) }
  | SSEEvent.frameKeepalive =>
      match s.eventSource with
      | some ESReadyState.opened => s
      | _ => s
  | SSEEvent.frameMalformed =>
      match s.eventSource with
      | some ESReadyState.opened => s
      | _ => s
  | SSEEvent.frameConnected =>
      match s.eventSource with
      | some ESReadyState.opened => s
      | _ => s
  | SSEEvent.frameProgress =>
      match s.eventSource with
      | some ESReadyState.opened => { s with progressCalls := s.progressCalls + 1 }
      | _ => s
  | SSEEvent.frameComplete =>
      match s.eventSource with
      | some ESReadyState.opened => sseCleanup { s with completeCalls := s.completeCalls + 1 }
      | _ => s
  | SSEEvent.frameError =>
      match s.eventSource with
      | some ESReadyState.opened => sseCleanup { s with serverErrorCalls := s.serverErrorCalls + 1 }
      | _ => s
  | SSEEvent.manualCleanup => sseCleanup s

/-- Subscription state right after `subscribeToProgress` performs its initial
`connect()` (with `ok` telling whether the constructor succeeded). -/
def sseInit (ok : Bool) : SSEState :=
  sseConnect ok
    { reconnectAttempts := 0
      isManuallyCloseD := false
      reconnectTimer := none
      eventSource := none
      lostCalls := 0
      serverErrorCalls := 0
      connectFailCalls := 0
      progressCalls := 0
      completeCalls := 0 }

/-- Run a sequence of subscription events. -/
def sseRun (evs : List SSEEvent) (s : SSEState) : SSEState :=
  evs.foldl (fun t ev => sseStep ev t) s

/-!
## Completion arbiter

Shallow embedding of the completion logic of `handleClassifyDocument` in
`App.tsx` for one job: the `isCompleted` flag, the grace-window completion
timer (2 s) and the hard-safety cleanup timer (5 s) armed when the triggering
request resolves, and the four completion signals.  `unsubCount` counts
invocations of the `unsubscribe` function returned by `subscribeToProgress`.
The `classifyingDocs` UI set and the result-list updates are outside the
scope of the claims and are not modelled. -/
structure ArbState where
  docId : String
  isCompleted : Bool
  completionTimer : Bool
  cleanupTimer : Bool
  unsubCount : Nat
  reg : RegState
deriving DecidableEq, Repr

/-- Signals reaching `handleClassifyDocument`'s closures for one job. -/
inductive ArbEvent where
  | sseProgress (message : String) (now : Nat)
  | sseComplete (now : Nat)
  | sseError (error : Option String) (now : Nat)
  | reqSuccess
  | reqFailure (error : String) (now : Nat)
  | graceFire (now : Nat)
  | safetyFire (now : Nat)
deriving DecidableEq, Repr

/-- Whether an event is a progress frame (the only signal that is not a
completion signal or timer firing). -/
def ArbEvent.isProgress : ArbEvent → Bool
  | ArbEvent.sseProgress _ _ => true
  | _ => false

/-- One step of the arbiter, transliterated from `handleClassifyDocument`:

* the SSE `onProgress` callback unconditionally calls `addProgress`;
* the SSE `onComplete` callback, when not yet completed, sets the flag, calls
  `completeOperation` and clears both timers (the SSE client self-cleans, so
  `unsubscribe` is not called here);
* the SSE `onError` callback, when not yet completed, sets the flag, calls
  `errorOperation` (defaulting the message to "Connection error"), calls
  `unsubscribe` and clears both timers;
* request success arms both the completion (grace) timer and the cleanup
  (safety) timer — it touches neither the flag nor the registry;
* request failure, when not yet completed, sets the flag and calls
  `errorOperation`; it then unconditionally calls `unsubscribe` and clears
  both timers;
* the completion timer, if still pending, fires: when not yet completed it
  sets the flag, calls `completeOperation` and `unsubscribe`; it does NOT
  clear the cleanup timer;
* the cleanup timer, if still pending, fires: when not yet completed it sets
  the flag and calls `completeOperation`; it then unconditionally calls
  `unsubscribe` and clears the completion timer. -/
def arbStep (ev : ArbEvent) (a : ArbState) : ArbState :=
  match ev with
  | ArbEvent.sseProgress msg now =>
      { a with reg := addProgress a.docId msg StepType.info now a.reg }
  | ArbEvent.sseComplete now =>
      if a.isCompleted then a
      else
        { a with
            isCompleted := true
            reg := completeOperation a.docId now a.reg
            completionTimer := false
            cleanupTimer := false }
  | ArbEvent.sseError err now =>
      if a.isCompleted then a
      else
        { a with
            isCompleted := true
            reg := errorOperation a.docId (err.getD "Connection error") now a.reg
            unsubCount := a.unsubCount + 1
            completionTimer := false
            cleanupTimer := false }
  | ArbEvent.reqSuccess =>
      { a with completionTimer := true, cleanupTimer := true }
  | ArbEvent.reqFailure err now =>
      let a1 :=
        if a.isCompleted then a
        else
          { a with
              isCompleted := true
              reg := errorOperation a.docId err now a.reg }
      { a1 with
          unsubCount := a1.unsubCount + 1
          completionTimer := false
          cleanupTimer := false }
  | ArbEvent.graceFire now =>
      if a.completionTimer then
        let a1 := { a with completionTimer := false }
        if a1.isCompleted then a1
        else
          { a1 with
              isCompleted := true
              reg := completeOperation a1.docId now a1.reg
              unsubCount := a1.unsubCount + 1 }
      else a
  | ArbEvent.safetyFire now =>
      if a.cleanupTimer then
        let a1 := { a with cleanupTimer := false }
        let a2 :=
          if a1.isCompleted then a1
          else
            { a1 with
                isCompleted := true
                reg := completeOperation a1.docId now a1.reg }
        { a2 with unsubCount := a2.unsubCount + 1, completionTimer := false }
      else a

/-- Arbiter state right after `handleClassifyDocument(docId)` has called
`startOperation` and subscribed (neither timer armed, nothing settled). -/
def arbInit (docId : String) (filename : Option String) (now : Nat) : ArbState :=
  { docId := docId
    isCompleted := false
    completionTimer := false
    cleanupTimer := false
    unsubCount := 0
    reg := startOperation docId filename now regInit }

/-- Run a sequence of arbiter events. -/
def arbRun (evs : List ArbEvent) (a : ArbState) : ArbState :=
  evs.foldl (fun t ev => arbStep ev t) a

/-- Number of history entries carrying a given `(documentId, startedAt)` key
(the dedup key used by `completeOperation`/`errorOperation`). -/
def countKey (history : List ProgressOperation) (documentId : String)
    (startedAt : Nat) : Nat :=
  (history.filter
    (fun h => h.documentId == documentId && h.startedAt == startedAt)).length

/-- Inductive invariant of one SSE subscription: the attempt counter never
exceeds the bound, a manually-closed subscription has released its source and
timer, the terminal "Connection lost" error fires at most once and only
together with cleanup, and every scheduled reconnect uses the fixed delay. -/
def sseInv (s : SSEState) : Prop :=
  s.reconnectAttempts ≤ maxReconnectAttempts
  ∧ (s.isManuallyCloseD = true → s.eventSource = none ∧ s.reconnectTimer = none)
  ∧ s.lostCalls ≤ 1
  ∧ (s.lostCalls = 1 → s.isManuallyCloseD = true)
  ∧ (∀ d, s.reconnectTimer = some d → d = reconnectDelay)

/-- Scenario C of the spec: the triggering request resolves successfully, the
channel never emits a `complete` frame, the grace-window timer fires at `n1`
and the hard-safety timer at `n2`. -/
def scenarioC (docId : String) (filename : Option String) (n0 n1 n2 : Nat) :
    ArbState :=
  arbRun [ArbEvent.reqSuccess, ArbEvent.graceFire n1, ArbEvent.safetyFire n2]
    (arbInit docId filename n0)

/-!
## Theorems

Sanity checks first (Scenario A of the spec), then helper lemmas, then the
claim theorems.
-/

theorem scenarioA_active_empty :
    (regRun
      [RegOp.start "doc-1" none 0,
       RegOp.step "doc-1" "Extracting" StepType.info 1,
       RegOp.step "doc-1" "Classifying" StepType.info 2,
       RegOp.complete "doc-1" 3] regInit).active = [] := by decide

theorem scenarioA_history :
    ((regRun
      [RegOp.start "doc-1" none 0,
       RegOp.step "doc-1" "Extracting" StepType.info 1,
       RegOp.step "doc-1" "Classifying" StepType.info 2,
       RegOp.complete "doc-1" 3] regInit).history.map
        (fun h => (h.documentId, h.status, h.steps.length)))
      = [("doc-1", OpStatus.completed, 2)] := by decide

theorem mapGet_mapDelete_self (l : List ProgressOperation) (id : String) :
    mapGet (mapDelete l id) id = none := by
  simp only [mapGet, mapDelete, List.find?_eq_none, List.mem_filter]
  intro op h
  simpa using h.2

theorem completeOperation_not_found {id : String} {n : Nat} {s : RegState}
    (h : mapGet s.active id = none) : completeOperation id n s = s := by
  simp [completeOperation, h]

theorem errorOperation_not_found {id e : String} {n : Nat} {s : RegState}
    (h : mapGet s.active id = none) : errorOperation id e n s = s := by
  simp [errorOperation, h]

theorem mapGet_completeOperation_self (id : String) (n : Nat) (s : RegState) :
    mapGet (completeOperation id n s).active id = none := by
  rcases h : mapGet s.active id with _ | op
  · rw [completeOperation_not_found h]; exact h
  · simp [completeOperation, h, mapGet_mapDelete_self]

theorem mapGet_errorOperation_self (id e : String) (n : Nat) (s : RegState) :
    mapGet (errorOperation id e n s).active id = none := by
  rcases h : mapGet s.active id with _ | op
  · rw [errorOperation_not_found h]; exact h
  · simp [errorOperation, h, mapGet_mapDelete_self]

theorem countKey_cons_take_le (c : ProgressOperation)
    (hist : List ProgressOperation) (qid : String) (qst : Nat)
    (hnodup : hist.any
      (fun h => h.documentId == c.documentId && h.startedAt == c.startedAt) = false)
    (h : countKey hist qid qst ≤ 1) :
    countKey ((c :: hist).take MAX_HISTORY) qid qst ≤ 1 := by
  have hsub : countKey ((c :: hist).take MAX_HISTORY) qid qst
      ≤ countKey (c :: hist) qid qst :=
    List.Sublist.length_le (List.Sublist.filter _ (List.take_sublist _ _))
  refine le_trans hsub ?_
  unfold countKey at *
  rw [List.filter_cons]
  by_cases hc : (c.documentId == qid && c.startedAt == qst) = true
  · have hqid : c.documentId = qid := by
      have := (Bool.and_eq_true _ _).mp hc
      exact eq_of_beq this.1
    have hqst : c.startedAt = qst := by
      have := (Bool.and_eq_true _ _).mp hc
      exact eq_of_beq this.2
    have hnil : hist.filter (fun h => h.documentId == qid && h.startedAt == qst) = [] := by
      rw [List.filter_eq_nil_iff]
      intro a ha
      have := List.any_eq_false.mp hnodup a ha
      rw [← hqid, ← hqst]
      simpa using this
    simp [hc, hnil]
  · simp only [Bool.not_eq_true] at hc
    simp [hc]
    exact h

theorem countKey_completeOperation_le (id : String) (n : Nat) (s : RegState)
    (qid : String) (qst : Nat) (h : countKey s.history qid qst ≤ 1) :
    countKey (completeOperation id n s).history qid qst ≤ 1 := by
  rcases hget : mapGet s.active id with _ | op
  · rw [completeOperation_not_found hget]; exact h
  · have hid : op.documentId = id := by
      have := List.find?_some hget
      exact eq_of_beq this
    simp only [completeOperation, hget]
    by_cases hd : s.history.any
        (fun h => h.documentId == id && h.startedAt == op.startedAt) = true
    · simpa [hd] using h
    · simp only [Bool.not_eq_true] at hd
      simp only [hd, if_false, Bool.false_eq_true]
      exact countKey_cons_take_le _ _ _ _ (by simpa [hid] using hd) h

theorem countKey_errorOperation_le (id e : String) (n : Nat) (s : RegState)
    (qid : String) (qst : Nat) (h : countKey s.history qid qst ≤ 1) :
    countKey (errorOperation id e n s).history qid qst ≤ 1 := by
  rcases hget : mapGet s.active id with _ | op
  · rw [errorOperation_not_found hget]; exact h
  · have hid : op.documentId = id := by
      have := List.find?_some hget
      exact eq_of_beq this
    simp only [errorOperation, hget]
    by_cases hd : s.history.any
        (fun h => h.documentId == id && h.startedAt == op.startedAt) = true
    · simpa [hd] using h
    · simp only [Bool.not_eq_true] at hd
      simp only [hd, if_false, Bool.false_eq_true]
      exact countKey_cons_take_le _ _ _ _ (by simpa [hid] using hd) h

/-- Claim C2 (confirmed): `completeOperation` and `errorOperation` are
idempotent.  After a first terminal call for an id, any second terminal call
for the same id (complete or error, at any later time, with any message)
leaves the whole registry state — active set, history, and snapshots —
literally unchanged; and a single terminal call never pushes the count of
history entries carrying a given `(documentId, startedAt)` pair above one, so
two completion signals for the same pair never yield two history entries. -/
theorem c2_terminal_idempotent (s : RegState) (id e e2 qid : String)
    (n1 n2 qst : Nat) :
    completeOperation id n2 (completeOperation id n1 s) = completeOperation id n1 s
    ∧ errorOperation id e2 n2 (completeOperation id n1 s) = completeOperation id n1 s
    ∧ completeOperation id n2 (errorOperation id e n1 s) = errorOperation id e n1 s
    ∧ errorOperation id e2 n2 (errorOperation id e n1 s) = errorOperation id e n1 s
    ∧ (countKey s.history qid qst ≤ 1 →
        countKey (completeOperation id n1 s).history qid qst ≤ 1)
    ∧ (countKey s.history qid qst ≤ 1 →
        countKey (errorOperation id e n1 s).history qid qst ≤ 1) :=
  ⟨completeOperation_not_found (mapGet_completeOperation_self id n1 s),
   errorOperation_not_found (mapGet_completeOperation_self id n1 s),
   completeOperation_not_found (mapGet_errorOperation_self id e n1 s),
   errorOperation_not_found (mapGet_errorOperation_self id e n1 s),
   countKey_completeOperation_le id n1 s qid qst,
   countKey_errorOperation_le id e n1 s qid qst⟩

/-- Witness for C2 at a concrete input. -/
theorem c2_witness :
    countKey (regRun [RegOp.start "a" none 0] regInit).history "a" 0 ≤ 1
    ∧ countKey
        (completeOperation "a" 1 (regRun [RegOp.start "a" none 0] regInit)).history
        "a" 0 ≤ 1 :=
  ⟨by decide,
   (c2_terminal_idempotent (regRun [RegOp.start "a" none 0] regInit)
     "a" "e" "e" "a" 1 2 0).2.2.2.2.1 (by decide)⟩

/-- Claim C7 (confirmed): for an id with no active entry, `addProgress` is a
silent no-op — the active set is unchanged, no entry is created or
resurrected for the id, and the history (every entry, steps included) is
untouched. -/
theorem c7_addstep_noop (s : RegState) (id msg : String) (ty : StepType)
    (now : Nat) (h : mapGet s.active id = none) :
    (addProgress id msg ty now s).active = s.active
    ∧ (addProgress id msg ty now s).history = s.history
    ∧ getOperation id (addProgress id msg ty now s) = none := by
  refine ⟨?_, ?_, ?_⟩ <;> simp [addProgress, getOperation, h]

/-- Witness for C7 at a concrete input: `addStep("doc-4", ...)` after
`doc-4` is already in history (Scenario D of the spec). -/
theorem c7_witness :
    (addProgress "doc-4" "late message" StepType.info 9
        (regRun [RegOp.start "doc-4" none 0, RegOp.complete "doc-4" 1] regInit)).history
      = (regRun [RegOp.start "doc-4" none 0, RegOp.complete "doc-4" 1] regInit).history :=
  (c7_addstep_noop
    (regRun [RegOp.start "doc-4" none 0, RegOp.complete "doc-4" 1] regInit)
    "doc-4" "late message" StepType.info 9 (by decide)).2.1

/-- Claim C10 (corrected): `clearHistory` empties the in-memory history and
leaves the in-memory active map — and hence every `getOperation` lookup —
unchanged, and it removes the active-operations snapshot from the durable
store; but the history snapshot does not end up removed: the history
write-through (which fires because the history state object changed) rewrites
it as the empty list immediately after `removeItem`, so the durable store is
left holding an empty history snapshot rather than none. -/
theorem c10_clear_history (s : RegState) :
    (clearHistory s).history = []
    ∧ (clearHistory s).storageActive = none
    ∧ (clearHistory s).storageHistory = some []
    ∧ (clearHistory s).active = s.active
    ∧ ∀ id, getOperation id (clearHistory s) = getOperation id s := by
  refine ⟨rfl, rfl, rfl, rfl, fun id => rfl⟩

/-- Counterexample for C10 as stated: after `clearHistory` on a state with a
nonempty history, the history snapshot is present (as the empty list), not
removed from the durable store. -/
theorem c10_counterexample :
    (regRun [RegOp.start "a" none 0, RegOp.complete "a" 1] regInit).history ≠ []
    ∧ (clearHistory
        (regRun [RegOp.start "a" none 0, RegOp.complete "a" 1] regInit)).storageHistory
        ≠ none := by decide

theorem history_length_le_regStep (op : RegOp) (s : RegState)
    (h : s.history.length ≤ MAX_HISTORY) :
    (regStep op s).history.length ≤ MAX_HISTORY := by
  rcases op with ⟨id, fn, now⟩ | ⟨id, msg, ty, now⟩ | ⟨id, now⟩ | ⟨id, e, now⟩ | ⟨id⟩ | _
  · simpa [regStep, startOperation] using h
  · rcases hget : mapGet s.active id with _ | op' <;>
      simp [regStep, addProgress, hget, h]
  · rcases hget : mapGet s.active id with _ | op'
    · simpa [regStep, completeOperation_not_found hget] using h
    · simp only [regStep, completeOperation, hget]
      split
      · exact h
      · simp [List.length_take]
  · rcases hget : mapGet s.active id with _ | op'
    · simpa [regStep, errorOperation_not_found hget] using h
    · simp only [regStep, errorOperation, hget]
      split
      · exact h
      · simp [List.length_take]
  · simpa [regStep, removeOperation] using h
  · simp [regStep, clearHistory]

theorem history_length_le_regRun (ops : List RegOp) (s : RegState)
    (h : s.history.length ≤ MAX_HISTORY) :
    (regRun ops s).history.length ≤ MAX_HISTORY := by
  induction ops generalizing s with
  | nil => exact h
  | cons op rest ih => exact ih _ (history_length_le_regStep op s h)

/-- Claim C6 (confirmed): in every state reachable from the initial one,
history never exceeds `MAX_HISTORY = 50` entries; and a terminal transition
that actually inserts (active entry found, `(id, startedAt)` not already in
history) puts the new entry at the front, keeping the rest when under the
cap and evicting exactly the oldest (last) entry when at the cap. -/
theorem c6_history_cap (ops : List RegOp) :
    (regRun ops regInit).history.length ≤ MAX_HISTORY
    ∧ ∀ (id : String) (now : Nat) (op : ProgressOperation),
        mapGet (regRun ops regInit).active id = some op →
        (regRun ops regInit).history.any
          (fun h => h.documentId == id && h.startedAt == op.startedAt) = false →
        (completeOperation id now (regRun ops regInit)).history
          = { op with status := OpStatus.completed, completedAt := some now }
            :: (if (regRun ops regInit).history.length < MAX_HISTORY
                then (regRun ops regInit).history
                else (regRun ops regInit).history.dropLast) := by
  have hlen : (regRun ops regInit).history.length ≤ MAX_HISTORY :=
    history_length_le_regRun ops regInit (by simp [regInit])
  refine ⟨hlen, fun id now op hget hnodup => ?_⟩
  have hm : MAX_HISTORY = 50 := rfl
  simp only [completeOperation, hget, hnodup, Bool.false_eq_true, if_false]
  conv_lhs => rw [show MAX_HISTORY = 49 + 1 from rfl]
  rw [List.take_succ_cons]
  by_cases hlt : (regRun ops regInit).history.length < MAX_HISTORY
  · rw [if_pos hlt,
      List.take_of_length_le (by omega : (regRun ops regInit).history.length ≤ 49)]
  · rw [if_neg hlt, List.dropLast_eq_take,
      (by omega : (regRun ops regInit).history.length = 50)]

/-- Witness for C6 at a concrete input. -/
theorem c6_witness :
    (completeOperation "a" 1 (regRun [RegOp.start "a" none 0] regInit)).history
      = [{ documentId := "a", filename := none, status := OpStatus.completed,
           steps := [], startedAt := 0, completedAt := some 1, error := none }] := by
  have h := (c6_history_cap [RegOp.start "a" none 0]).2 "a" 1
    { documentId := "a", filename := none, status := OpStatus.active,
      steps := [], startedAt := 0, completedAt := none, error := none }
    (by decide) (by decide)
  exact h.trans (by decide)

theorem history_pairwise_regStep (op : RegOp) (s : RegState)
    (h : s.history.Pairwise
      (fun a b => ¬(a.documentId = b.documentId ∧ a.startedAt = b.startedAt))) :
    (regStep op s).history.Pairwise
      (fun a b => ¬(a.documentId = b.documentId ∧ a.startedAt = b.startedAt)) := by
  rcases op with ⟨id, fn, now⟩ | ⟨id, msg, ty, now⟩ | ⟨id, now⟩ | ⟨id, e, now⟩ | ⟨id⟩ | _
  · simpa [regStep, startOperation] using h
  · have hsame : (regStep (RegOp.step id msg ty now) s).history = s.history := by
      rcases hget : mapGet s.active id with _ | op' <;> simp [regStep, addProgress, hget]
    rw [hsame]; exact h
  · rcases hget : mapGet s.active id with _ | op'
    · simpa [regStep, completeOperation_not_found hget] using h
    · simp only [regStep, completeOperation, hget]
      split
      · exact h
      · rename_i hnd
        have hanyf : s.history.any
            (fun x => x.documentId == id && x.startedAt == op'.startedAt) = false := by
          revert hnd
          cases s.history.any
            (fun x => x.documentId == id && x.startedAt == op'.startedAt) <;> simp
        refine List.Pairwise.sublist (List.take_sublist _ _) ?_
        refine List.pairwise_cons.mpr ⟨?_, h⟩
        intro b hb hcon
        have hfind : s.active.find? (fun o => o.documentId == id) = some op' := hget
        have hid : op'.documentId = id := by
          have hp := List.find?_some hfind
          simpa using hp
        have e1 : b.documentId = id := by rw [← hcon.1]; exact hid
        have e2 : b.startedAt = op'.startedAt := hcon.2.symm
        exact List.any_eq_false.mp hanyf b hb (by simp [e1, e2])
  · rcases hget : mapGet s.active id with _ | op'
    · simpa [regStep, errorOperation_not_found hget] using h
    · simp only [regStep, errorOperation, hget]
      split
      · exact h
      · rename_i hnd
        have hanyf : s.history.any
            (fun x => x.documentId == id && x.startedAt == op'.startedAt) = false := by
          revert hnd
          cases s.history.any
            (fun x => x.documentId == id && x.startedAt == op'.startedAt) <;> simp
        refine List.Pairwise.sublist (List.take_sublist _ _) ?_
        refine List.pairwise_cons.mpr ⟨?_, h⟩
        intro b hb hcon
        have hfind : s.active.find? (fun o => o.documentId == id) = some op' := hget
        have hid : op'.documentId = id := by
          have hp := List.find?_some hfind
          simpa using hp
        have e1 : b.documentId = id := by rw [← hcon.1]; exact hid
        have e2 : b.startedAt = op'.startedAt := hcon.2.symm
        exact List.any_eq_false.mp hanyf b hb (by simp [e1, e2])
  · simpa [regStep, removeOperation] using h
  · simp [regStep, clearHistory]

theorem history_pairwise_regRun (ops : List RegOp) (s : RegState)
    (h : s.history.Pairwise
      (fun a b => ¬(a.documentId = b.documentId ∧ a.startedAt = b.startedAt))) :
    (regRun ops s).history.Pairwise
      (fun a b => ¬(a.documentId = b.documentId ∧ a.startedAt = b.startedAt)) := by
  induction ops generalizing s with
  | nil => exact h
  | cons op rest ih => exact ih _ (history_pairwise_regStep op s h)

/-- Claim C3 (corrected): what actually holds in every reachable state is
that no two history entries share the same `(documentId, startedAt)` pair —
the dedup key used by the terminal transitions.  The stronger claim (an id is
in the active set XOR appears at most once in history, keyed by id alone) is
false: `startOperation` may restart a finished id, see the counterexample. -/
theorem c3_history_key_nodup (ops : List RegOp) :
    (regRun ops regInit).history.Pairwise
      (fun a b => ¬(a.documentId = b.documentId ∧ a.startedAt = b.startedAt)) :=
  history_pairwise_regRun ops regInit (by simp [regInit])

/-- Counterexample for C3 as stated: after
`start "a"; complete "a"; start "a"` the id `"a"` is simultaneously in the
active set and in history, and after a further `complete "a"` it appears
twice in history (with different `startedAt` values). -/
theorem c3_counterexample :
    (mapGet (regRun [RegOp.start "a" none 0, RegOp.complete "a" 1,
        RegOp.start "a" none 2] regInit).active "a").isSome = true
    ∧ ((regRun [RegOp.start "a" none 0, RegOp.complete "a" 1,
        RegOp.start "a" none 2] regInit).history.filter
          (fun h => h.documentId == "a")).length = 1
    ∧ ((regRun [RegOp.start "a" none 0, RegOp.complete "a" 1,
        RegOp.start "a" none 2, RegOp.complete "a" 3] regInit).history.filter
          (fun h => h.documentId == "a")).length = 2 := by decide

/-- Claim C5 (corrected): on load, a restored active entry older than five
minutes is never resumed as active, and — provided the number of stale
entries does not exceed the `MAX_HISTORY = 50` cap — it lands in history as a
terminal error entry with `completedAt = now` and the fixed interruption
message; entries at or under the threshold remain active.  Without the cap
hypothesis the history part is false, see the counterexample. -/
theorem c5_stale_load (s : RegState) (now : Nat)
    (hcap : (s.active.filter
      (fun op => decide (fiveMinutes < now - op.startedAt))).length ≤ MAX_HISTORY) :
    ∀ op ∈ s.active,
      (fiveMinutes < now - op.startedAt →
        op ∉ (loadStaleOperations now s).active
        ∧ ({ op with
              status := OpStatus.error
              completedAt := some now
              error := some staleErrorMsg } : ProgressOperation)
            ∈ (loadStaleOperations now s).history)
      ∧ (now - op.startedAt ≤ fiveMinutes →
          op ∈ (loadStaleOperations now s).active) := by
  intro op hop
  refine ⟨fun hstale => ⟨?_, ?_⟩, fun hfresh => ?_⟩
  · simp only [loadStaleOperations]
    intro hmem
    rw [List.mem_filter] at hmem
    have : ¬ (fiveMinutes < now - op.startedAt) := by simpa using hmem.2
    exact this hstale
  · simp only [loadStaleOperations]
    have hmemStale :
        ({ op with
              status := OpStatus.error
              completedAt := some now
              error := some staleErrorMsg } : ProgressOperation)
          ∈ (s.active.filter
              (fun o => decide (fiveMinutes < now - o.startedAt))).map
            (fun o => { o with
              status := OpStatus.error
              completedAt := some now
              error := some staleErrorMsg }) := by
      exact List.mem_map_of_mem _ (List.mem_filter.mpr ⟨hop, by simpa using hstale⟩)
    have hne : ((s.active.filter
        (fun o => decide (fiveMinutes < now - o.startedAt))).map
          (fun o => { o with
              status := OpStatus.error
              completedAt := some now
              error := some staleErrorMsg })).isEmpty = false :=
      List.isEmpty_eq_false.mpr (List.ne_nil_of_mem hmemStale)
    rw [if_neg (by simp [hne])]
    have hlen : ((s.active.filter
        (fun o => decide (fiveMinutes < now - o.startedAt))).map
          (fun o => ({ o with
              status := OpStatus.error
              completedAt := some now
              error := some staleErrorMsg } : ProgressOperation))).length
        ≤ MAX_HISTORY := by
      simpa [List.length_map] using hcap
    rw [List.take_append_eq_append_take, List.take_of_length_le hlen]
    exact List.mem_append_left _ hmemStale
  · simp only [loadStaleOperations]
    rw [List.mem_filter]
    refine ⟨hop, by simp; omega⟩

/-- Witness for C5 at a concrete input: one stale and one fresh restored
entry. -/
theorem c5_witness :
    ({ documentId := "old", filename := none, status := OpStatus.error,
       steps := [], startedAt := 0, completedAt := some (fiveMinutes + 1),
       error := some staleErrorMsg } : ProgressOperation)
      ∈ (loadStaleOperations (fiveMinutes + 1)
          { active := [{ documentId := "old", filename := none,
                         status := OpStatus.active, steps := [], startedAt := 0,
                         completedAt := none, error := none },
                       { documentId := "new", filename := none,
                         status := OpStatus.active, steps := [],
                         startedAt := fiveMinutes + 1, completedAt := none,
                         error := none }],
            history := [], storageActive := some [], storageHistory := some [] }).history
    ∧ ({ documentId := "new", filename := none, status := OpStatus.active,
         steps := [], startedAt := fiveMinutes + 1, completedAt := none,
         error := none } : ProgressOperation)
      ∈ (loadStaleOperations (fiveMinutes + 1)
          { active := [{ documentId := "old", filename := none,
                         status := OpStatus.active, steps := [], startedAt := 0,
                         completedAt := none, error := none },
                       { documentId := "new", filename := none,
                         status := OpStatus.active, steps := [],
                         startedAt := fiveMinutes + 1, completedAt := none,
                         error := none }],
            history := [], storageActive := some [], storageHistory := some [] }).active := by
  have h := c5_stale_load
    { active := [{ documentId := "old", filename := none,
                   status := OpStatus.active, steps := [], startedAt := 0,
                   completedAt := none, error := none },
                 { documentId := "new", filename := none,
                   status := OpStatus.active, steps := [],
                   startedAt := fiveMinutes + 1, completedAt := none,
                   error := none }],
      history := [], storageActive := some [], storageHistory := some [] }
    (fiveMinutes + 1) (by decide)
  refine ⟨?_, ?_⟩
  · have h1 := (h { documentId := "old"
                    filename := none
                    status := OpStatus.active
                    steps := []
                    startedAt := 0
                    completedAt := none
                    error := none } (by decide)).1 (by decide)
    exact h1.2
  · exact (h { documentId := "new"
               filename := none
               status := OpStatus.active
               steps := []
               startedAt := fiveMinutes + 1
               completedAt := none
               error := none } (by decide)).2 (by decide)

/-- Counterexample for C5 as stated: with 51 restored entries all stale, the
51st stale entry (`"a50"`) is dropped from the active set but evicted from
history by the 50-entry cap, so it is nowhere after the load step —
contradicting "present in history" for every stale entry. -/
theorem c5_counterexample :
    ((({ active := (List.range 51).map (fun i =>
            ({ documentId := "a" ++ toString i, filename := none,
               status := OpStatus.active, steps := [], startedAt := 0,
               completedAt := none, error := none } : ProgressOperation)),
         history := [], storageActive := some [],
         storageHistory := some [] } : RegState)).active.any
        (fun op => op.documentId == "a50" && decide (fiveMinutes < (fiveMinutes + 1) - op.startedAt)) = true)
    ∧ ((loadStaleOperations (fiveMinutes + 1)
        { active := (List.range 51).map (fun i =>
            ({ documentId := "a" ++ toString i, filename := none,
               status := OpStatus.active, steps := [], startedAt := 0,
               completedAt := none, error := none } : ProgressOperation)),
          history := [], storageActive := some [],
          storageHistory := some [] }).active = [])
    ∧ ((loadStaleOperations (fiveMinutes + 1)
        { active := (List.range 51).map (fun i =>
            ({ documentId := "a" ++ toString i, filename := none,
               status := OpStatus.active, steps := [], startedAt := 0,
               completedAt := none, error := none } : ProgressOperation)),
          history := [], storageActive := some [],
          storageHistory := some [] }).history.all
        (fun h => h.documentId != "a50") = true) := by decide

/-- Claim C1 (corrected): request success does not settle the job — it only
arms the grace and safety timers, leaving the settled flag and the registry
untouched — so a stream signal arriving after a successful request still
performs a terminal transition.  What does hold: each of stream-complete,
stream-error and request-failure, when the job is not yet settled, flips the
settled flag and performs its terminal transition (as does the first timer
firing after request success), and once the job is settled every further
completion signal or timer firing leaves the registry unchanged. -/
theorem c1_settled_registry_frozen (a : ArbState) (ev : ArbEvent) (n : Nat)
    (msg : Option String) (emsg : String) :
    (a.isCompleted = true → ev.isProgress = false → (arbStep ev a).reg = a.reg)
    ∧ (a.isCompleted = false →
        ((arbStep (ArbEvent.sseComplete n) a).reg = completeOperation a.docId n a.reg
          ∧ (arbStep (ArbEvent.sseComplete n) a).isCompleted = true)
        ∧ ((arbStep (ArbEvent.sseError msg n) a).reg
              = errorOperation a.docId (msg.getD "Connection error") n a.reg
          ∧ (arbStep (ArbEvent.sseError msg n) a).isCompleted = true)
        ∧ ((arbStep (ArbEvent.reqFailure emsg n) a).reg
              = errorOperation a.docId emsg n a.reg
          ∧ (arbStep (ArbEvent.reqFailure emsg n) a).isCompleted = true))
    ∧ ((arbStep ArbEvent.reqSuccess a).reg = a.reg
        ∧ (arbStep ArbEvent.reqSuccess a).isCompleted = a.isCompleted
        ∧ (arbStep ArbEvent.reqSuccess a).completionTimer = true
        ∧ (arbStep ArbEvent.reqSuccess a).cleanupTimer = true)
    ∧ (a.isCompleted = false → a.completionTimer = true →
        (arbStep (ArbEvent.graceFire n) a).reg = completeOperation a.docId n a.reg
        ∧ (arbStep (ArbEvent.graceFire n) a).isCompleted = true) := by
  refine ⟨fun hc hev => ?_, fun hc => ?_, ?_, fun hc ht => ?_⟩
  · cases ev with
    | sseProgress m t => simp [ArbEvent.isProgress] at hev
    | sseComplete t => simp [arbStep, hc]
    | sseError e t => simp [arbStep, hc]
    | reqSuccess => simp [arbStep]
    | reqFailure e t => simp [arbStep, hc]
    | graceFire t =>
        simp only [arbStep, hc]
        split <;> simp
    | safetyFire t =>
        simp only [arbStep, hc]
        split <;> simp
  · refine ⟨⟨?_, ?_⟩, ⟨?_, ?_⟩, ?_, ?_⟩ <;> simp [arbStep, hc]
  · refine ⟨?_, ?_, ?_, ?_⟩ <;> simp [arbStep]
  · constructor <;> simp [arbStep, hc, ht]

/-- Witness for C1 at concrete inputs: a job settled by a stream-complete
signal is frozen against a later grace-timer firing, and the stream-complete
signal itself settles the job. -/
theorem c1_witness :
    (arbStep (ArbEvent.graceFire 5)
        (arbRun [ArbEvent.sseComplete 1, ArbEvent.reqSuccess] (arbInit "d" none 0))).reg
      = (arbRun [ArbEvent.sseComplete 1, ArbEvent.reqSuccess] (arbInit "d" none 0)).reg
    ∧ (arbStep (ArbEvent.sseComplete 1) (arbInit "d" none 0)).isCompleted = true := by
  refine ⟨(c1_settled_registry_frozen
      (arbRun [ArbEvent.sseComplete 1, ArbEvent.reqSuccess] (arbInit "d" none 0))
      (ArbEvent.graceFire 5) 5 none "").1 (by decide) (by decide), ?_⟩
  exact (((c1_settled_registry_frozen (arbInit "d" none 0)
      (ArbEvent.graceFire 5) 1 none "").2.1 (by decide)).1).2

/-- Counterexample for C1 as stated: request success is the first of the four
completion signals to occur, yet it does not flip the settled flag and
performs no registry transition; the subsequent stream-error signal then
changes the registry — so a signal after the first is not a no-op. -/
theorem c1_counterexample :
    (arbStep ArbEvent.reqSuccess (arbInit "doc" none 0)).isCompleted = false
    ∧ (arbStep ArbEvent.reqSuccess (arbInit "doc" none 0)).reg
        = (arbInit "doc" none 0).reg
    ∧ (arbStep (ArbEvent.sseError none 1)
        (arbStep ArbEvent.reqSuccess (arbInit "doc" none 0))).reg
        ≠ (arbStep ArbEvent.reqSuccess (arbInit "doc" none 0)).reg := by decide

/-- Claim C8 (corrected): settling via stream-complete, stream-error or
request-failure does cancel both timers, and a safety-timer firing always
leaves both timers unarmed; but settling via the grace-window timer does NOT
cancel the hard-safety cleanup timer — it stays pending (its later firing
performs no registry transition, see the last conjunct). -/
theorem c8_timer_cancellation (a : ArbState) (n m : Nat) (msg : Option String)
    (emsg : String) :
    (a.isCompleted = false →
        ((arbStep (ArbEvent.sseComplete n) a).completionTimer = false
          ∧ (arbStep (ArbEvent.sseComplete n) a).cleanupTimer = false)
        ∧ ((arbStep (ArbEvent.sseError msg n) a).completionTimer = false
          ∧ (arbStep (ArbEvent.sseError msg n) a).cleanupTimer = false))
    ∧ ((arbStep (ArbEvent.reqFailure emsg n) a).completionTimer = false
        ∧ (arbStep (ArbEvent.reqFailure emsg n) a).cleanupTimer = false)
    ∧ ((arbStep (ArbEvent.safetyFire n) a).cleanupTimer = false
        ∨ (arbStep (ArbEvent.safetyFire n) a).cleanupTimer = a.cleanupTimer)
    ∧ (a.cleanupTimer = true → (arbStep (ArbEvent.safetyFire n) a).completionTimer = false)
    ∧ (a.isCompleted = false → a.completionTimer = true →
        (arbStep (ArbEvent.graceFire n) a).isCompleted = true
        ∧ (arbStep (ArbEvent.graceFire n) a).cleanupTimer = a.cleanupTimer
        ∧ (arbStep (ArbEvent.safetyFire m) (arbStep (ArbEvent.graceFire n) a)).reg
            = (arbStep (ArbEvent.graceFire n) a).reg) := by
  refine ⟨fun hc => ?_, ?_, ?_, fun hcl => ?_, fun hc ht => ?_⟩
  · refine ⟨⟨?_, ?_⟩, ?_, ?_⟩ <;> simp [arbStep, hc]
  · constructor <;> simp [arbStep]
  · simp only [arbStep]
    split
    · left
      split <;> simp
    · right
      rfl
  · simp [arbStep, hcl]
  · refine ⟨?_, ?_, ?_⟩
    · simp [arbStep, hc, ht]
    · simp [arbStep, hc, ht]
    · simp only [arbStep, hc, ht, if_true]
      split <;> split <;> simp

/-- Witness for C8 at a concrete input: stream-complete on an unsettled job
with both timers armed cancels both. -/
theorem c8_witness :
    (arbStep (ArbEvent.sseComplete 1)
        (arbRun [ArbEvent.reqSuccess] (arbInit "d" none 0))).completionTimer = false
    ∧ (arbStep (ArbEvent.sseComplete 1)
        (arbRun [ArbEvent.reqSuccess] (arbInit "d" none 0))).cleanupTimer = false :=
  ((c8_timer_cancellation (arbRun [ArbEvent.reqSuccess] (arbInit "d" none 0))
    1 1 none "").1 (by decide)).1

/-- Counterexample for C8 as stated: after the grace-window timer settles the
job, the state is settled while the hard-safety cleanup timer is still
pending — a pending timer on a settled job. -/
theorem c8_counterexample :
    (arbRun [ArbEvent.reqSuccess, ArbEvent.graceFire 2] (arbInit "d" none 0)).isCompleted = true
    ∧ (arbRun [ArbEvent.reqSuccess, ArbEvent.graceFire 2]
        (arbInit "d" none 0)).cleanupTimer = true := by decide

/-- Claim C9 (corrected): in Scenario C (request resolves successfully, the
channel never emits `complete`), the grace-window timer does auto-complete
the job — afterwards the job is out of the active set and in history as
completed — but the channel cleanup function is invoked twice over the run,
not exactly once: once by the grace timer and once more by the hard-safety
timer that was never cancelled.  The second invocation is harmless because
cleanup is idempotent. -/
theorem c9_fallback_completion (id : String) (fn : Option String)
    (n0 n1 n2 : Nat) :
    mapGet (scenarioC id fn n0 n1 n2).reg.active id = none
    ∧ (scenarioC id fn n0 n1 n2).reg.history
        = [{ documentId := id, filename := fn, status := OpStatus.completed,
             steps := [], startedAt := n0, completedAt := some n1, error := none }]
    ∧ (scenarioC id fn n0 n1 n2).isCompleted = true
    ∧ (scenarioC id fn n0 n1 n2).unsubCount = 2
    ∧ ∀ t : SSEState, sseCleanup (sseCleanup t) = sseCleanup t := by
  refine ⟨?_, ?_, ?_, ?_, fun t => ?_⟩ <;>
    simp [scenarioC, arbRun, arbStep, arbInit, startOperation, completeOperation,
      regInit, mapSet, mapGet, mapDelete, List.find?, List.filter, MAX_HISTORY,
      sseCleanup]

/-- Counterexample for C9 as stated: in the Scenario C run the cleanup
function is invoked twice, not exactly once (even though the registry did
auto-complete via the fallback timer). -/
theorem c9_counterexample :
    (arbRun [ArbEvent.reqSuccess, ArbEvent.graceFire 2, ArbEvent.safetyFire 5]
        (arbInit "doc-3" none 0)).unsubCount = 2
    ∧ ((arbRun [ArbEvent.reqSuccess, ArbEvent.graceFire 2, ArbEvent.safetyFire 5]
        (arbInit "doc-3" none 0)).reg.history.map (fun h => h.status))
        = [OpStatus.completed]
    ∧ (arbRun [ArbEvent.reqSuccess, ArbEvent.graceFire 2, ArbEvent.safetyFire 5]
        (arbInit "doc-3" none 0)).unsubCount ≠ 1 := by decide

theorem sseInv_init (ok : Bool) : sseInv (sseInit ok) := by
  cases ok <;> simp [sseInit, sseConnect, sseInv, maxReconnectAttempts]

theorem sseInv_step (ev : SSEEvent) (s : SSEState) (h : sseInv s) :
    sseInv (sseStep ev s) := by
  obtain ⟨h1, h2, h3, h4, h5⟩ := h
  cases ev with
  | onOpen =>
      rcases hsrc : s.eventSource with _ | st
      · simp only [sseStep, hsrc]
        exact ⟨h1, h2, h3, h4, h5⟩
      · simp only [sseStep, hsrc]
        exact ⟨Nat.zero_le _, fun hmc => absurd (h2 hmc).1 (by simp [hsrc]),
          h3, h4, h5⟩
  | transportFail =>
      rcases hsrc : s.eventSource with _ | st
      · simp only [sseStep, hsrc]
        exact ⟨h1, h2, h3, h4, h5⟩
      · have hmc : s.isManuallyCloseD = false := by
          cases hmcv : s.isManuallyCloseD
          · rfl
          · exact absurd (h2 hmcv).1 (by simp [hsrc])
        have hl0 : s.lostCalls = 0 := by
          rcases Nat.lt_or_ge s.lostCalls 1 with hl | hl
          · omega
          · have h1l : s.lostCalls = 1 := by omega
            exact absurd (h4 h1l) (by simp [hmc])
        by_cases hlt : s.reconnectAttempts < maxReconnectAttempts
        · have hstep : sseStep SSEEvent.transportFail s
              = { s with
                  eventSource := some ESReadyState.closed
                  reconnectAttempts := s.reconnectAttempts + 1
                  reconnectTimer := some reconnectDelay } := by
            simp [sseStep, hsrc, hmc, hlt]
          rw [hstep]
          exact ⟨by show s.reconnectAttempts + 1 ≤ maxReconnectAttempts; omega,
            fun hmcx => absurd hmcx (by simp [hmc]), h3,
            fun hl => absurd (h4 hl) (by simp [hmc]),
            fun d hd => (Option.some.inj hd).symm⟩
        · have hge : maxReconnectAttempts ≤ s.reconnectAttempts :=
            Nat.le_of_not_lt hlt
          have hstep : sseStep SSEEvent.transportFail s
              = sseCleanup { s with
                  eventSource := some ESReadyState.closed
                  lostCalls := s.lostCalls + 1 } := by
            simp [sseStep, hsrc, hmc, hlt, hge]
          rw [hstep]
          simp only [sseCleanup]
          exact ⟨h1, fun _ => ⟨rfl, rfl⟩, by show s.lostCalls + 1 ≤ 1; omega,
            fun _ => rfl, fun d hd => by simp at hd⟩
  | timerFire ok =>
      rcases htm : s.reconnectTimer with _ | d
      · simp only [sseStep, htm]
        exact ⟨h1, h2, h3, h4, h5⟩
      · have hmc : s.isManuallyCloseD = false := by
          cases hmcv : s.isManuallyCloseD
          · rfl
          · exact absurd (h2 hmcv).2 (by simp [htm])
        cases ok
        · have hstep : sseStep (SSEEvent.timerFire false) s
              = { s with
                  reconnectTimer := none
                  eventSource := s.eventSource.map (fun _ => ESReadyState.closed)
                  connectFailCalls := s.connectFailCalls + 1 } := by
            simp [sseStep, htm, sseConnect, hmc]
          rw [hstep]
          exact ⟨h1, fun hmcx => absurd hmcx (by simp [hmc]), h3,
            fun hl => absurd (h4 hl) (by simp [hmc]), fun d hd => by simp at hd⟩
        · have hstep : sseStep (SSEEvent.timerFire true) s
              = { s with
                  reconnectTimer := none
                  eventSource := some ESReadyState.connecting } := by
            simp [sseStep, htm, sseConnect, hmc]
          rw [hstep]
          exact ⟨h1, fun hmcx => absurd hmcx (by simp [hmc]), h3,
            fun hl => absurd (h4 hl) (by simp [hmc]), fun d hd => by simp at hd⟩
  | frameKeepalive =>
      rcases hsrc : s.eventSource with _ | st
      · simp only [sseStep, hsrc]
        exact ⟨h1, h2, h3, h4, h5⟩
      · cases st <;> simp only [sseStep, hsrc] <;> exact ⟨h1, h2, h3, h4, h5⟩
  | frameMalformed =>
      rcases hsrc : s.eventSource with _ | st
      · simp only [sseStep, hsrc]
        exact ⟨h1, h2, h3, h4, h5⟩
      · cases st <;> simp only [sseStep, hsrc] <;> exact ⟨h1, h2, h3, h4, h5⟩
  | frameConnected =>
      rcases hsrc : s.eventSource with _ | st
      · simp only [sseStep, hsrc]
        exact ⟨h1, h2, h3, h4, h5⟩
      · cases st <;> simp only [sseStep, hsrc] <;> exact ⟨h1, h2, h3, h4, h5⟩
  | frameProgress =>
      rcases hsrc : s.eventSource with _ | st
      · simp only [sseStep, hsrc]
        exact ⟨h1, h2, h3, h4, h5⟩
      · cases st <;> simp only [sseStep, hsrc]
        · exact ⟨h1, h2, h3, h4, h5⟩
        · exact ⟨h1, fun hmc => absurd (h2 hmc).1 (by simp [hsrc]), h3, h4, h5⟩
        · exact ⟨h1, h2, h3, h4, h5⟩
  | frameComplete =>
      rcases hsrc : s.eventSource with _ | st
      · simp only [sseStep, hsrc]
        exact ⟨h1, h2, h3, h4, h5⟩
      · cases st <;> simp only [sseStep, hsrc, sseCleanup]
        · exact ⟨h1, h2, h3, h4, h5⟩
        · exact ⟨h1, fun _ => ⟨rfl, rfl⟩, h3, fun _ => rfl,
            fun d hd => by simp at hd⟩
        · exact ⟨h1, h2, h3, h4, h5⟩
  | frameError =>
      rcases hsrc : s.eventSource with _ | st
      · simp only [sseStep, hsrc]
        exact ⟨h1, h2, h3, h4, h5⟩
      · cases st <;> simp only [sseStep, hsrc, sseCleanup]
        · exact ⟨h1, h2, h3, h4, h5⟩
        · exact ⟨h1, fun _ => ⟨rfl, rfl⟩, h3, fun _ => rfl,
            fun d hd => by simp at hd⟩
        · exact ⟨h1, h2, h3, h4, h5⟩
  | manualCleanup =>
      simp only [sseStep, sseCleanup]
      exact ⟨h1, fun _ => ⟨rfl, rfl⟩, h3, fun _ => rfl, fun d hd => by simp at hd⟩

theorem sseInv_run (evs : List SSEEvent) (s : SSEState) (h : sseInv s) :
    sseInv (sseRun evs s) := by
  induction evs generalizing s with
  | nil => exact h
  | cons ev rest ih => exact ih _ (sseInv_step ev s h)

theorem sseStep_frozen (ev : SSEEvent) (s : SSEState)
    (hmc : s.isManuallyCloseD = true) (hsrc : s.eventSource = none)
    (htm : s.reconnectTimer = none) : sseStep ev s = s := by
  cases ev with
  | onOpen => simp [sseStep, hsrc]
  | transportFail => simp [sseStep, hsrc]
  | timerFire ok => simp [sseStep, htm]
  | frameKeepalive => simp [sseStep, hsrc]
  | frameMalformed => simp [sseStep, hsrc]
  | frameConnected => simp [sseStep, hsrc]
  | frameProgress => simp [sseStep, hsrc]
  | frameComplete => simp [sseStep, hsrc]
  | frameError => simp [sseStep, hsrc]
  | manualCleanup =>
      rcases s with ⟨att, mc, timer, src, lost, sev, cfc, pc, cc⟩
      simp only [sseStep, sseCleanup]
      simp_all

theorem sseStep_lost_increment (ev : SSEEvent) (s : SSEState) (hinv : sseInv s)
    (h : (sseStep ev s).lostCalls = s.lostCalls + 1) :
    s.reconnectAttempts = maxReconnectAttempts
    ∧ (sseStep ev s).isManuallyCloseD = true
    ∧ (sseStep ev s).eventSource = none
    ∧ (sseStep ev s).reconnectTimer = none := by
  obtain ⟨h1, h2, h3, h4, h5⟩ := hinv
  cases ev with
  | onOpen =>
      rcases hsrc : s.eventSource with _ | st <;>
        simp only [sseStep, hsrc] at h <;> omega
  | transportFail =>
      rcases hsrc : s.eventSource with _ | st
      · simp only [sseStep, hsrc] at h
        omega
      · have hmc : s.isManuallyCloseD = false := by
          cases hmcv : s.isManuallyCloseD
          · rfl
          · exact absurd (h2 hmcv).1 (by simp [hsrc])
        by_cases hlt : s.reconnectAttempts < maxReconnectAttempts
        · simp [sseStep, hsrc, hmc, hlt] at h
        · have hge := Nat.le_of_not_lt hlt
          refine ⟨by omega, ?_, ?_, ?_⟩ <;>
            simp [sseStep, hsrc, hmc, hlt, hge, sseCleanup]
  | timerFire ok =>
      rcases htm : s.reconnectTimer with _ | d
      · simp only [sseStep, htm] at h
        omega
      · cases hmcv : s.isManuallyCloseD <;> cases ok <;>
          simp [sseStep, htm, sseConnect, hmcv] at h
  | frameKeepalive =>
      rcases hsrc : s.eventSource with _ | st
      · simp only [sseStep, hsrc] at h
        omega
      · cases st <;> simp [sseStep, hsrc] at h
  | frameMalformed =>
      rcases hsrc : s.eventSource with _ | st
      · simp only [sseStep, hsrc] at h
        omega
      · cases st <;> simp [sseStep, hsrc] at h
  | frameConnected =>
      rcases hsrc : s.eventSource with _ | st
      · simp only [sseStep, hsrc] at h
        omega
      · cases st <;> simp [sseStep, hsrc] at h
  | frameProgress =>
      rcases hsrc : s.eventSource with _ | st
      · simp only [sseStep, hsrc] at h
        omega
      · cases st <;> simp [sseStep, hsrc] at h
  | frameComplete =>
      rcases hsrc : s.eventSource with _ | st
      · simp only [sseStep, hsrc] at h
        omega
      · cases st <;> simp [sseStep, hsrc, sseCleanup] at h
  | frameError =>
      rcases hsrc : s.eventSource with _ | st
      · simp only [sseStep, hsrc] at h
        omega
      · cases st <;> simp [sseStep, hsrc, sseCleanup] at h
  | manualCleanup => simp [sseStep, sseCleanup] at h

/-- Claim C4 (confirmed): over every event sequence of one subscription, the
attempt counter never exceeds the bound of 3, every scheduled reconnect uses
the fixed 2000 ms delay, the terminal "Connection lost" error callback fires
at most once; when it is about to fire once more than before, the client has
already used exactly 3 reconnect attempts since the last successful open
(never fewer) and the firing step also performs cleanup (manual-close flag
set, source and timer released); and once it has fired, every further event
leaves the subscription state completely unchanged — no further retries and
no second firing. -/
theorem c4_reconnect_policy (ok : Bool) (evs : List SSEEvent) :
    (sseRun evs (sseInit ok)).reconnectAttempts ≤ maxReconnectAttempts
    ∧ (sseRun evs (sseInit ok)).lostCalls ≤ 1
    ∧ (∀ d, (sseRun evs (sseInit ok)).reconnectTimer = some d → d = reconnectDelay)
    ∧ (∀ ev, (sseRun evs (sseInit ok)).lostCalls = 1 →
        sseStep ev (sseRun evs (sseInit ok)) = sseRun evs (sseInit ok))
    ∧ (∀ ev, (sseStep ev (sseRun evs (sseInit ok))).lostCalls
          = (sseRun evs (sseInit ok)).lostCalls + 1 →
        (sseRun evs (sseInit ok)).reconnectAttempts = maxReconnectAttempts
        ∧ (sseStep ev (sseRun evs (sseInit ok))).isManuallyCloseD = true
        ∧ (sseStep ev (sseRun evs (sseInit ok))).eventSource = none
        ∧ (sseStep ev (sseRun evs (sseInit ok))).reconnectTimer = none) := by
  have hinv := sseInv_run evs (sseInit ok) (sseInv_init ok)
  obtain ⟨h1, h2, h3, h4, h5⟩ := hinv
  refine ⟨h1, h3, h5, fun ev hl => ?_,
    fun ev h => sseStep_lost_increment ev _ ⟨h1, h2, h3, h4, h5⟩ h⟩
  have hmc := h4 hl
  exact sseStep_frozen ev _ hmc (h2 hmc).1 (h2 hmc).2

/-- Witness for C4 at a concrete input: three failed reconnects followed by a
fourth transport error trip the terminal error exactly once, and afterwards a
further transport event changes nothing. -/
theorem c4_witness :
    (sseRun [SSEEvent.transportFail, SSEEvent.timerFire true,
        SSEEvent.transportFail, SSEEvent.timerFire true, SSEEvent.transportFail,
        SSEEvent.timerFire true, SSEEvent.transportFail] (sseInit true)).lostCalls = 1
    ∧ sseStep SSEEvent.transportFail
        (sseRun [SSEEvent.transportFail, SSEEvent.timerFire true,
          SSEEvent.transportFail, SSEEvent.timerFire true, SSEEvent.transportFail,
          SSEEvent.timerFire true, SSEEvent.transportFail] (sseInit true))
      = sseRun [SSEEvent.transportFail, SSEEvent.timerFire true,
          SSEEvent.transportFail, SSEEvent.timerFire true, SSEEvent.transportFail,
          SSEEvent.timerFire true, SSEEvent.transportFail] (sseInit true) :=
  ⟨by decide,
   (c4_reconnect_policy true [SSEEvent.transportFail, SSEEvent.timerFire true,
      SSEEvent.transportFail, SSEEvent.timerFire true, SSEEvent.transportFail,
      SSEEvent.timerFire true, SSEEvent.transportFail]).2.2.2.1
     SSEEvent.transportFail (by decide)⟩

end ProgressTracking
